import Mathlib

/-!
Shallow embedding of the SpinWick provisioning / polling / compensation
orchestrator of mattermost-mattermod (files `server/spinwick.go`,
`server/builds.go`, `model/pull_request.go`).

Modelling conventions:
* Go strings are modelled as Lean `String`; the byte slice `s[i:j]` is
  modelled on the character list (`goSlice`), returning `none` where Go
  would panic with "slice bounds out of range".
* Every HTTP interaction with the provisioning server, the record store,
  GitHub, Jenkins and the docker registry is an external collaborator; its
  responses are supplied by oracle parameters (functions from the poll
  index to a response).  A transport error of `makeRequest` is a distinct
  constructor from a decoded response.
* `json.Decode` failures that Go compares against `io.EOF` are modelled as:
  `io.EOF` leaves the zero-valued struct (constructor `ok` with the zero
  value), any other decode error is the `decodeErr` constructor.
* A polling loop bounded by a `context.WithTimeout` deadline is modelled
  with fuel: the fuel counts how many times the `select` may take the
  `time.After` branch before `ctx.Done()` fires.  The Go loops poll first
  and check the deadline afterwards, which the embedding reproduces.
* Side effects (comments posted on the pull request, delete requests,
  the call to `initializeMattermostTestServer`, the record-store delete)
  are recorded in an event trace returned next to the result.
-/

namespace Mattermod

/-- Go slice expression s[i:j] on the character list of a string; `none`
models the "slice bounds out of range" runtime panic. -/
def goSlice (s : String) (i j : Nat) : Option String :=
  if i ≤ j ∧ j ≤ s.data.length then some (String.mk ((s.data.drop i).take (j - i)))
  else none

/-- Whether the first character list starts the second. -/
def leadsWith : List Char → List Char → Bool
  | [], _ => true
  | _ :: _, [] => false
  | a :: as, b :: bs => a == b && leadsWith as bs

/-- Whether the first character list occurs inside the second. -/
def hasSub (sub : List Char) : List Char → Bool
  | [] => leadsWith sub []
  | c :: rest => leadsWith sub (c :: rest) || hasSub sub rest

/-- Go strings.Contains: the substring occurs somewhere in the string. -/
def goContains (s sub : String) : Bool :=
  hasSub sub.data s.data

/-- Go strconv.ParseInt with the error ignored (the caller discards it),
which leaves the zero value on a parse failure. -/
def goParseIntOr0 (s : String) : Int :=
  (s.toInt?).getD 0

/-- Pull request model (model/pull_request.go).  The time / pointer /
milestone fields are never read by the orchestrator and are omitted. -/
structure PullRequest where
  RepoOwner : String
  RepoName : String
  FullName : String
  Number : Int
  Username : String
  Ref : String
  Sha : String
  Labels : List String
  State : String
  BuildStatus : String
  BuildConclusion : String
  BuildLink : String
  URL : String
  deriving DecidableEq

/-- The fields of the global mattermod config read by the SpinWick
orchestrator (referenced as `Config` in server/spinwick.go). -/
structure Config where
  ProvisionerServer : String
  DNSNameTestServer : String
  SetupSpinmintFailedMessage : String
  SetupSpinWick : String
  SetupSpinWickHA : String
  deriving DecidableEq

/-- CreateInstallationRequest (server/spinwick.go). -/
structure CreateInstallationRequest where
  OwnerID : String
  Version : String
  DNS : String
  Size : String
  Affinity : String
  deriving DecidableEq

/-- Installation (server/spinwick.go); the `[]byte` metadata of the
cloud structs does not exist here, pointers become `Option`. -/
structure Installation where
  ID : String
  OwnerID : String
  Version : String
  DNS : String
  Size : String
  Affinity : String
  GroupID : Option String
  State : String
  CreateAt : Int
  DeleteAt : Int
  LockAcquiredBy : Option String
  LockAcquiredAt : Int
  deriving DecidableEq

/-- Cluster (server/spinwick.go); `[]byte` metadata modelled as strings. -/
structure Cluster where
  ID : String
  Provider : String
  Provisioner : String
  ProviderMetadata : Option String
  ProvisionerMetadata : Option String
  AllowInstallations : Bool
  Size : String
  State : String
  CreateAt : Int
  DeleteAt : Int
  LockAcquiredBy : Option String
  LockAcquiredAt : Int
  deriving DecidableEq

/-- Zero value of `Cluster`, what `var clusterRequest Cluster` declares and
what a failed decode leaves behind. -/
def zeroCluster : Cluster :=
  { ID := "", Provider := "", Provisioner := "", ProviderMetadata := none,
    ProvisionerMetadata := none, AllowInstallations := false, Size := "",
    State := "", CreateAt := 0, DeleteAt := 0, LockAcquiredBy := none,
    LockAcquiredAt := 0 }

/-- Observable side effects of the orchestrator, recorded in order. -/
inductive Event where
  | createInstallationReq (req : CreateInstallationRequest)
  | getInstallation (id : String)
  | clusterCreateReq (size : String)
  | getCluster (id : String)
  | putUpgrade (id : String) (version : String)
  | deleteInstallation (id : String)
  | removeRecord (id : String)
  | comment (msg : String)
  | bootstrap (url : String) (prNumber : Int)
  deriving DecidableEq

/-- Result of fetching and decoding an installation from the provisioning
server: transport error of makeRequest, a decode error other than io.EOF,
or a decoded installation (io.EOF decodes to the zero value). -/
inductive InstFetch where
  | reqErr
  | decodeErr
  | ok (inst : Installation)
  deriving DecidableEq

/-- Result of fetching and decoding a cluster from the provisioning
server. -/
inductive ClusterFetch where
  | reqErr
  | decodeErr
  | ok (c : Cluster)
  deriving DecidableEq

/-- Outcome of a Go function that may either return normally, return an
error, or panic at runtime. -/
inductive RunResult (α : Type) where
  | ok (val : α)
  | err (msg : String)
  | panicked (msg : String)
  deriving DecidableEq

/-- makePullRequestID (server/spinwick.go line 658). -/
def makePullRequestID (repoName : String) (prNumber : Int) : String :=
  (repoName ++ "-pr-" ++ toString prNumber).toLower

/-- The https URL built for the installation in waitMattermostInstallation
(server/spinwick.go line 378). -/
def mmURL (cfg : Config) (pr : PullRequest) : String :=
  "https://" ++ makePullRequestID pr.RepoName pr.Number ++ "." ++ cfg.DNSNameTestServer

/-- The fixed credential table included in the creation success comment. -/
def userTable : String :=
  "| Account Type | Username | Password |\n|---|---|---|\n| Admin | sysadmin | Sys@dmin123 |\n| User | user-1 | User-1@123 |"

/-- One iteration of waitMattermostInstallation after the GET request,
returning `some (result, events-after-the-poll-event)` when the iteration
leaves the loop, and `none` when the loop is going to sleep and poll
again (server/spinwick.go lines 365-398). -/
def waitMMPoll (cfg : Config) (pr : PullRequest) (upgrade : Bool)
    (bootstrapOk : Bool) (r : InstFetch) :
    Option (Except String Unit × List Event) :=
  match r with
  | InstFetch.reqErr => some (Except.error "error making the get installation request", [])
  | InstFetch.decodeErr => some (Except.error "Error decoding installation", [])
  | InstFetch.ok inst =>
    if inst.State = "stable" then
      if upgrade then
        some (Except.ok (),
          [Event.comment ("Mattermost test server updated!\n\nAccess here: " ++ mmURL cfg pr)])
      else
        if bootstrapOk then
          some (Except.ok (),
            [Event.bootstrap (mmURL cfg pr) pr.Number,
             Event.comment ("Mattermost test server created! :tada:\n\nAccess here: "
               ++ mmURL cfg pr ++ "\n\n" ++ userTable)])
        else
          some (Except.ok (),
            [Event.bootstrap (mmURL cfg pr) pr.Number,
             Event.comment "Failed to create mattermost installation.",
             Event.deleteInstallation inst.ID])
    else if inst.State = "creation-failed" then
      some (Except.error "error creating mattermost installation",
        [Event.comment "Failed to create mattermost installation.",
         Event.deleteInstallation inst.ID])
    else none

/-- The installation carried by a fetch result; zero value otherwise
(only used on the non-terminal path, where the fetch is `ok`). -/
def fetchedInst : InstFetch → Installation
  | InstFetch.ok inst => inst
  | _ => { ID := "", OwnerID := "", Version := "", DNS := "", Size := "",
           Affinity := "", GroupID := none, State := "", CreateAt := 0,
           DeleteAt := 0, LockAcquiredBy := none, LockAcquiredAt := 0 }

/-- waitMattermostInstallation (server/spinwick.go lines 362-408).  The
oracle `fetch` gives the decoded response of the i-th GET; the fuel is the
number of sleeps the 480s deadline allows.  On `ctx.Done()` the function
deletes the installation carried by the last decoded response and posts a
timeout comment; note that both the creation-failed branch and the
deadline branch run on the upgrade flow as well. -/
def waitMattermostInstallation (cfg : Config) (pr : PullRequest)
    (installationRequestID : String) (upgrade : Bool) (bootstrapOk : Bool)
    (fetch : Nat → InstFetch) : Nat → Nat → Except String Unit × List Event
  | i, 0 =>
    match waitMMPoll cfg pr upgrade bootstrapOk (fetch i) with
    | some (res, evs) => (res, Event.getInstallation installationRequestID :: evs)
    | none =>
      (Except.error "timed out waiting for the mattermost installation complete. requesting the deletion",
       [Event.getInstallation installationRequestID,
        Event.deleteInstallation (fetchedInst (fetch i)).ID,
        Event.comment "Timed out waiting for the mattermost installation. Please check the logs."])
  | i, Nat.succ fuel =>
    match waitMMPoll cfg pr upgrade bootstrapOk (fetch i) with
    | some (res, evs) => (res, Event.getInstallation installationRequestID :: evs)
    | none =>
      let rest := waitMattermostInstallation cfg pr installationRequestID upgrade bootstrapOk fetch (i+1) fuel
      (rest.1, Event.getInstallation installationRequestID :: rest.2)

/-- One iteration of waitK8sCluster after the GET request
(server/spinwick.go lines 413-431).  A transport error aborts; a decode
error is only logged, leaving the zero-valued cluster, so the state checks
run against the zero value and the loop keeps polling. -/
def waitK8sPoll (r : ClusterFetch) : Option (Except String Unit × List Event) :=
  match r with
  | ClusterFetch.reqErr => some (Except.error "error making the get cluster request", [])
  | ClusterFetch.decodeErr =>
    let clusterRequest := zeroCluster
    if clusterRequest.State = "stable" then
      some (Except.ok (), [Event.comment "Kubernetes cluster created. Now will deploy Mattermost... Hang on!"])
    else if clusterRequest.State = "creation-failed" then
      some (Except.error "error creating k8s cluster", [Event.comment "Failed to create the k8s cluster."])
    else none
  | ClusterFetch.ok clusterRequest =>
    if clusterRequest.State = "stable" then
      some (Except.ok (), [Event.comment "Kubernetes cluster created. Now will deploy Mattermost... Hang on!"])
    else if clusterRequest.State = "creation-failed" then
      some (Except.error "error creating k8s cluster", [Event.comment "Failed to create the k8s cluster."])
    else none

/-- waitK8sCluster (server/spinwick.go lines 410-441).  No delete request
is ever issued for a cluster; on the deadline only a comment is posted. -/
def waitK8sCluster (clusterRequestID : String)
    (fetch : Nat → ClusterFetch) : Nat → Nat → Except String Unit × List Event
  | i, 0 =>
    match waitK8sPoll (fetch i) with
    | some (res, evs) => (res, Event.getCluster clusterRequestID :: evs)
    | none =>
      (Except.error "timed out waiting for the cluster installation complete",
       [Event.getCluster clusterRequestID,
        Event.comment "Timed out waiting for the kubernetes cluster. Please check the logs."])
  | i, Nat.succ fuel =>
    match waitK8sPoll (fetch i) with
    | some (res, evs) => (res, Event.getCluster clusterRequestID :: evs)
    | none =>
      let rest := waitK8sCluster clusterRequestID fetch (i+1) fuel
      (rest.1, Event.getCluster clusterRequestID :: rest.2)

/-- Result of makeRequest as seen by a caller that inspects the response:
either the transport failed (Go returns a nil response together with the
error) or a response with a status code came back. -/
inductive HTTPResult where
  | transportErr
  | resp (status : Nat)
  deriving DecidableEq

/-- Whether a call returned normally or tore down the goroutine with a
runtime panic. -/
inductive DestroyOutcome where
  | completed
  | panicked
  deriving DecidableEq

/-- destroyMMInstallation (server/spinwick.go lines 317-324).  The DELETE
request is always issued.  If makeRequest fails, the error is logged and
the function keeps going to `defer resp.Body.Close()` with `resp` nil,
which dereferences a nil pointer and panics. -/
def destroyMMInstallation (instanceClusterID : String) (deleteResp : HTTPResult) :
    DestroyOutcome × List Event :=
  match deleteResp with
  | HTTPResult.transportErr =>
    (DestroyOutcome.panicked, [Event.deleteInstallation instanceClusterID])
  | HTTPResult.resp _ =>
    (DestroyOutcome.completed, [Event.deleteInstallation instanceClusterID])

/-- destroySpinWick (server/spinwick.go lines 309-315): remote delete,
then removal of the persisted record.  A panic inside
destroyMMInstallation propagates, so the record removal is not reached. -/
def destroySpinWick (instanceClusterID : String) (deleteResp : HTTPResult) :
    DestroyOutcome × List Event :=
  match destroyMMInstallation instanceClusterID deleteResp with
  | (DestroyOutcome.panicked, tr) => (DestroyOutcome.panicked, tr)
  | (DestroyOutcome.completed, tr) =>
    (DestroyOutcome.completed, tr ++ [Event.removeRecord instanceClusterID])

/-- requestK8sClusterCreation (server/spinwick.go lines 586-622): comment,
POST the fixed-size cluster request, decode, then block on waitK8sCluster
with a 900s deadline (`clusterFuel` sleeps). -/
def requestK8sClusterCreation (clusterResp : ClusterFetch)
    (clusterFetch : Nat → ClusterFetch) (clusterFuel : Nat) :
    Except String Unit × List Event :=
  let ev0 := Event.comment "Please wait while a new kubernetes cluster is created for your SpinWick"
  let ev1 := Event.clusterCreateReq "SizeAlef1000"
  match clusterResp with
  | ClusterFetch.reqErr =>
    (Except.error "Error trying to send the k8s-cluster-creation request", [ev0, ev1])
  | ClusterFetch.decodeErr => (Except.error "Error decoding", [ev0, ev1])
  | ClusterFetch.ok cluster =>
    let w := waitK8sCluster cluster.ID clusterFetch 0 clusterFuel
    (w.1, ev0 :: ev1 :: w.2)

/-- Environment of one createSpinWick run: responses of the POST that
creates the installation, of the single GET done 3 seconds later, of the
cluster-creation POST (used only on the no-compatible-clusters path), the
two polling oracles with their deadlines, and whether
initializeMattermostTestServer would succeed. -/
structure CreateEnv where
  createResp : InstFetch
  firstFetch : InstFetch
  clusterResp : ClusterFetch
  clusterFetch : Nat → ClusterFetch
  clusterFuel : Nat
  instFetch : Nat → InstFetch
  instFuel : Nat
  bootstrapOk : Bool

/-- createSpinWick (server/spinwick.go lines 139-211).  Builds the
create-installation request (panicking if the head sha is shorter than 7
bytes), POSTs it, re-fetches the installation once, requests a kubernetes
cluster when the state is creation-no-compatible-clusters, then blocks on
waitMattermostInstallation with upgrade=false. -/
def createSpinWick (cfg : Config) (pr : PullRequest) (size : String)
    (env : CreateEnv) : RunResult String × List Event :=
  match goSlice pr.Sha 0 7 with
  | none => (RunResult.panicked "slice bounds out of range", [])
  | some shortSha =>
    let prID := makePullRequestID pr.RepoName pr.Number
    let installationRequest : CreateInstallationRequest :=
      { OwnerID := prID, Version := shortSha,
        DNS := prID ++ "." ++ cfg.DNSNameTestServer,
        Size := size, Affinity := "multitenant" }
    let ev0 := Event.createInstallationReq installationRequest
    match env.createResp with
    | InstFetch.reqErr =>
      (RunResult.err "Error making the post request to create the mattermost installation", [ev0])
    | InstFetch.decodeErr => (RunResult.err "Error decoding installation response", [ev0])
    | InstFetch.ok installation =>
      let installationID := installation.ID
      let ev1 := Event.getInstallation installationID
      match env.firstFetch with
      | InstFetch.reqErr => (RunResult.err "Error making the get installation request", [ev0, ev1])
      | InstFetch.decodeErr => (RunResult.err "Error decoding installation", [ev0, ev1])
      | InstFetch.ok inst2 =>
        let clusterPart : Except String Unit × List Event :=
          if inst2.State = "creation-no-compatible-clusters" then
            requestK8sClusterCreation env.clusterResp env.clusterFetch env.clusterFuel
          else (Except.ok (), [])
        match clusterPart.1 with
        | Except.error e => (RunResult.err e, [ev0, ev1] ++ clusterPart.2)
        | Except.ok _ =>
          let w := waitMattermostInstallation cfg pr installationID false env.bootstrapOk
            env.instFetch 0 env.instFuel
          (match w.1 with
           | Except.ok _ => RunResult.ok installationID
           | Except.error e => RunResult.err e,
           [ev0, ev1] ++ clusterPart.2 ++ w.2)

/-- Result of `Srv.Store.Spinmint().Get(pr.Number)`. -/
inductive SpinmintGet where
  | storeErr
  | noRecord
  | found (instanceId : String)
  deriving DecidableEq

/-- Environment of one updateSpinWick run: the outcome of checkBuildLink,
of the record-store lookup, of waitForBuildComplete, the PUT upgrade
response, and the polling oracle for waitMattermostInstallation. -/
structure UpdateEnv where
  buildLinkResult : Except Unit String
  spinmintGet : SpinmintGet
  buildComplete : Except Unit Unit
  putResp : HTTPResult
  instFetch : Nat → InstFetch
  instFuel : Nat
  bootstrapOk : Bool

/-- updateSpinWick (server/spinwick.go lines 213-307).  Requires a
SpinWick label, resolves the fresh build link, loads the persisted
installation id, waits for the build, PUTs the version upgrade and — only
when the PUT is answered with HTTP 202 — blocks on
waitMattermostInstallation with upgrade=true. -/
def updateSpinWick (cfg : Config) (pr : PullRequest) (env : UpdateEnv) :
    RunResult Unit × List Event :=
  let foundLabel := pr.Labels.contains cfg.SetupSpinWick
    || pr.Labels.contains cfg.SetupSpinWickHA
  if !foundLabel then (RunResult.ok (), [])
  else
    match env.buildLinkResult with
    | Except.error _ => (RunResult.ok (), [Event.comment cfg.SetupSpinmintFailedMessage])
    | Except.ok buildLink =>
      if buildLink = "" then (RunResult.ok (), [Event.comment cfg.SetupSpinmintFailedMessage])
      else
        match env.spinmintGet with
        | SpinmintGet.storeErr => (RunResult.ok (), [])
        | SpinmintGet.noRecord => (RunResult.ok (), [])
        | SpinmintGet.found installation =>
          let ev0 := Event.comment "New commit detected. SpinWick upgrade will occur after the build is successful."
          match env.buildComplete with
          | Except.error _ => (RunResult.ok (), [ev0])
          | Except.ok _ =>
            match goSlice pr.Sha 0 7 with
            | none => (RunResult.panicked "slice bounds out of range", [ev0])
            | some shortCommit =>
              let evPut := Event.putUpgrade installation shortCommit
              match env.putResp with
              | HTTPResult.transportErr =>
                (RunResult.ok (),
                 [ev0, evPut,
                  Event.comment "Error during the request to upgrade. Please remove the label and try again."])
              | HTTPResult.resp status =>
                if status ≠ 202 then
                  (RunResult.ok (),
                   [ev0, evPut,
                    Event.comment "Error doing the upgrade process. Please remove the label and try again."])
                else
                  let w := waitMattermostInstallation cfg pr installation true env.bootstrapOk
                    env.instFetch 0 env.instFuel
                  match w.1 with
                  | Except.error _ =>
                    (RunResult.ok (), [ev0, evPut] ++ w.2 ++ [Event.comment cfg.SetupSpinmintFailedMessage])
                  | Except.ok _ => (RunResult.ok (), [ev0, evPut] ++ w.2)

/-- Per-repository configuration entry (type declared outside the
provided sources; the two fields read by server/builds.go and
server/spinwick.go). -/
structure Repository where
  Owner : String
  Name : String
  BuildStatusContext : String
  JenkinsServer : String
  deriving DecidableEq

/-- Server configuration as seen by the Builds methods; waitForBuild
receives it through `s *Server` but never reads it (its data comes from
the store and GitHub oracles). -/
structure ServerCfg where
  Repositories : List Repository
  deriving DecidableEq

/-- Modelled from the spec: the package-level constant `serverRepoName` is
declared in a file outside the provided sources; the source comment next
to its use (server/builds.go line 126) names the mattermost-server job. -/
def serverRepoName : String := "mattermost-server"

/-- getInstallationVersion (server/builds.go lines 27-29): the Go slice
pr.Sha[0:7]; undefined (runtime panic) when the sha has fewer than 7
bytes. -/
def getInstallationVersion (pr : PullRequest) : Option String :=
  goSlice pr.Sha 0 7

/-- Result of one registry ManifestDigest lookup: success, or an error
whose text Go inspects for the substring status=404. -/
inductive RegLookup where
  | ok
  | err (msg : String)
  deriving DecidableEq

/-- waitForImage (server/builds.go lines 49-78).  Fuel counts how many
times the `select` may take the `time.After` branch before `ctx.Done()`
fires; each iteration re-reads the PR from the store and queries the
registry.  Returns the result together with the number of iterations
executed. -/
def waitForImage (storeGet : Nat → Except Unit PullRequest)
    (manifest : Nat → RegLookup) : Nat → Nat → RunResult PullRequest × Nat
  | _, 0 => (RunResult.err "timed out waiting for image to publish", 0)
  | i, Nat.succ fuel =>
    match storeGet i with
    | Except.error _ => (RunResult.err "unable to get updated PR from Mattermod database", 1)
    | Except.ok pr =>
      match getInstallationVersion pr with
      | none => (RunResult.panicked "slice bounds out of range", 1)
      | some _ =>
        match manifest i with
        | RegLookup.ok => (RunResult.ok pr, 1)
        | RegLookup.err e =>
          if goContains e "status=404" then
            let rest := waitForImage storeGet manifest (i+1) fuel
            (rest.1, rest.2 + 1)
          else
            (RunResult.err "unable to fetch tag from docker registry", 1)

/-- A Jenkins build as read through the jenkins client. -/
structure JenkinsBuild where
  Number : Int
  Building : Bool
  Result : String
  deriving DecidableEq

/-- The Jenkins API surface used by waitForBuild: GetJob by name and
GetBuild by job name and number. -/
structure JenkinsEnv where
  getJob : String → Except Unit Unit
  getBuild : String → Int → Except Unit JenkinsBuild

/-- Outcome of one waitForBuild loop iteration: either the loop returns
(successfully or with an error / runtime panic) or it sleeps and polls
again; `done` and `again` carry the refreshed pull request, which Go
threads through the loop variable. -/
inductive BuildIter where
  | done (pr : PullRequest)
  | failed (msg : String)
  | again (pr : PullRequest)
  | panicked (msg : String)
  deriving DecidableEq

/-- The terminal-decision part of a loop iteration, separated from the
refreshed pull request it carries. -/
inductive BuildDecision where
  | success
  | failure (msg : String)
  | keepPolling
  | panic (msg : String)
  deriving DecidableEq

/-- Packs a decision with the refreshed pull request into the iteration
outcome (`return pr, nil` / `return pr, err` / fall through to sleep in
the source). -/
def buildIterOf (pr : PullRequest) : BuildDecision → BuildIter
  | BuildDecision.success => BuildIter.done pr
  | BuildDecision.failure m => BuildIter.failed m
  | BuildDecision.keepPolling => BuildIter.again pr
  | BuildDecision.panic m => BuildIter.panicked m

/-- List lookup with the empty string as the (unreached) default, for the
index expressions on the split build link. -/
def partsGet (l : List String) (i : Nat) : String := l.getD i ""

/-- The mattermost-webapp branch of waitForBuild (server/builds.go lines
99-111): the decision reads only the check-run status and conclusion
fields of the refreshed pull request. -/
def webappDecision (pr : PullRequest) : BuildDecision :=
  if pr.BuildStatus = "in_progress" then BuildDecision.keepPolling
  else if pr.BuildStatus = "completed" then
    if pr.BuildConclusion = "success" then BuildDecision.success
    else BuildDecision.failure "build failed"
  else BuildDecision.failure ("unknown build status " ++ pr.BuildStatus)

/-- The non-webapp branch of waitForBuild (server/builds.go lines
112-157): parse the Jenkins job out of the build link (panicking on a
link with fewer than six slash-separated parts), fetch the job and the
build, and decide on the Jenkins build result; only the build link and
the repository name of the pull request are read. -/
def jenkinsDecision (jenkins : JenkinsEnv) (pr : PullRequest) : BuildDecision :=
  if pr.BuildLink = "" then BuildDecision.keepPolling
  else
    let parts := pr.BuildLink.splitOn "/"
    if pr.RepoName = serverRepoName then
      if parts.length < 6 then BuildDecision.panic "index out of range"
      else
        let jobNumber := goParseIntOr0 (partsGet parts (parts.length - 3))
        let jobName := "mp/job/" ++ partsGet parts (parts.length - 6)
          ++ "/job/" ++ partsGet parts (parts.length - 4)
        match jenkins.getJob jobName with
        | Except.error _ => BuildDecision.failure ("failed to get Jenkins job " ++ jobName)
        | Except.ok _ =>
          match jenkins.getBuild jobName jobNumber with
          | Except.error _ => BuildDecision.failure "failed to get Jenkins build"
          | Except.ok build =>
            if !build.Building && build.Result == "SUCCESS" then BuildDecision.success
            else if build.Result == "FAILURE" || build.Result == "ABORTED" then
              BuildDecision.failure ("build failed with status " ++ build.Result)
            else BuildDecision.keepPolling
    else BuildDecision.failure ("unsupported repository " ++ pr.RepoName)

/-- One iteration of waitForBuild (server/builds.go lines 85-159) after
the 30s tick: re-read the PR from the store, refresh its checks from
GitHub, then decide.  The mattermost-webapp branch reads the check-run
status and conclusion fields of the PR; every other repository goes
through the Jenkins build referenced by the PR build link — the choice is
made on the repository name, the configured status context is never
consulted (the ServerCfg argument is present but unread, exactly as `s`
is in the source). -/
def waitForBuildIter (s : ServerCfg) (jenkins : JenkinsEnv)
    (storeGet : Except Unit PullRequest)
    (ghChecks : PullRequest → Except Unit PullRequest) : BuildIter :=
  match storeGet with
  | Except.error _ => BuildIter.failed "unable to get updated PR from Mattermod database"
  | Except.ok pr0 =>
    match ghChecks pr0 with
    | Except.error _ => BuildIter.failed "unable to get updated PR from GitHub"
    | Except.ok pr =>
      if pr.RepoName = "mattermost-webapp" then buildIterOf pr (webappDecision pr)
      else buildIterOf pr (jenkinsDecision jenkins pr)

/-- waitForBuild (server/builds.go lines 80-162): the polling loop around
waitForBuildIter, with the ctx deadline as fuel.  Returns the result and
the number of iterations executed. -/
def waitForBuild (s : ServerCfg) (jenkins : Nat → JenkinsEnv)
    (storeGet : Nat → Except Unit PullRequest)
    (ghChecks : Nat → PullRequest → Except Unit PullRequest) :
    Nat → Nat → RunResult PullRequest × Nat
  | _, 0 => (RunResult.err "timed out waiting for build to finish", 0)
  | i, Nat.succ fuel =>
    match waitForBuildIter s (jenkins i) (storeGet i) (ghChecks i) with
    | BuildIter.done pr => (RunResult.ok pr, 1)
    | BuildIter.failed m => (RunResult.err m, 1)
    | BuildIter.panicked m => (RunResult.panicked m, 1)
    | BuildIter.again _ =>
      let rest := waitForBuild s jenkins storeGet ghChecks (i+1) fuel
      (rest.1, rest.2 + 1)

/-- A commit status returned by the GitHub combined-status API. -/
structure GHStatus where
  Context : String
  TargetURL : String
  deriving DecidableEq

/-- A check run returned by the GitHub checks API. -/
structure GHCheckRun where
  Name : String
  HTMLURL : String
  deriving DecidableEq

/-- One iteration of checkBuildLink (server/builds.go lines 167-188),
given the repository's configured BuildStatusContext: first commit status
whose context matches it and whose target URL is non-empty wins; failing
that, the first check run whose name matches it. -/
def checkBuildLinkIter (buildStatusContext : String)
    (statuses : List GHStatus) (checkRuns : List GHCheckRun) : Option String :=
  match statuses.findSome? (fun st =>
      if st.Context == buildStatusContext && st.TargetURL != "" then some st.TargetURL else none) with
  | some link => some link
  | none =>
    checkRuns.findSome? (fun c =>
      if c.Name == buildStatusContext then some c.HTMLURL else none)

/-- A fetch result on which the installation polling loop keeps going:
a decoded installation in a state that is neither stable nor
creation-failed. -/
def instContinues : InstFetch → Bool
  | InstFetch.ok inst => !(inst.State == "stable") && !(inst.State == "creation-failed")
  | _ => false

/-- A fetch result on which the cluster polling loop keeps going; a decode
error continues with the zero-valued cluster. -/
def clusterContinues : ClusterFetch → Bool
  | ClusterFetch.reqErr => false
  | ClusterFetch.decodeErr => true
  | ClusterFetch.ok c => !(c.State == "stable") && !(c.State == "creation-failed")

theorem waitMMPoll_none_of_continues (cfg : Config) (pr : PullRequest)
    (upgrade bootstrapOk : Bool) (r : InstFetch)
    (h : instContinues r = true) :
    waitMMPoll cfg pr upgrade bootstrapOk r = none := by
  cases r with
  | reqErr => simp [instContinues] at h
  | decodeErr => simp [instContinues] at h
  | ok inst =>
    simp only [instContinues, Bool.and_eq_true, Bool.not_eq_true', beq_eq_false_iff_ne] at h
    simp [waitMMPoll, h.1, h.2]

theorem waitMM_eq_of_terminal (cfg : Config) (pr : PullRequest) (id : String)
    (upgrade bootstrapOk : Bool) (fetch : Nat → InstFetch) (i fuel : Nat)
    (res : Except String Unit) (evs : List Event)
    (h : waitMMPoll cfg pr upgrade bootstrapOk (fetch i) = some (res, evs)) :
    waitMattermostInstallation cfg pr id upgrade bootstrapOk fetch i fuel =
      (res, Event.getInstallation id :: evs) := by
  cases fuel <;> simp [waitMattermostInstallation, h]

theorem waitMM_cont_step (cfg : Config) (pr : PullRequest) (id : String)
    (upgrade bootstrapOk : Bool) (fetch : Nat → InstFetch) (i fuel : Nat)
    (h : instContinues (fetch i) = true) :
    waitMattermostInstallation cfg pr id upgrade bootstrapOk fetch i (fuel+1) =
      ((waitMattermostInstallation cfg pr id upgrade bootstrapOk fetch (i+1) fuel).1,
       Event.getInstallation id ::
         (waitMattermostInstallation cfg pr id upgrade bootstrapOk fetch (i+1) fuel).2) := by
  simp [waitMattermostInstallation,
    waitMMPoll_none_of_continues cfg pr upgrade bootstrapOk _ h]

theorem waitMM_reach (cfg : Config) (pr : PullRequest) (id : String)
    (upgrade bootstrapOk : Bool) (fetch : Nat → InstFetch) :
    ∀ (k i fuel : Nat), k ≤ fuel →
    (∀ j, j < k → instContinues (fetch (i+j)) = true) →
    ∀ (res : Except String Unit) (evs : List Event),
    waitMMPoll cfg pr upgrade bootstrapOk (fetch (i+k)) = some (res, evs) →
    waitMattermostInstallation cfg pr id upgrade bootstrapOk fetch i fuel =
      (res, List.replicate (k+1) (Event.getInstallation id) ++ evs) := by
  intro k
  induction k with
  | zero =>
    intro i fuel _ _ res evs h
    rw [waitMM_eq_of_terminal cfg pr id upgrade bootstrapOk fetch i fuel res evs
      (by simpa using h)]
    simp
  | succ k ih =>
    intro i fuel hk hcont res evs h
    obtain ⟨fuel2, rfl⟩ : ∃ f, fuel = f + 1 := ⟨fuel - 1, by omega⟩
    rw [waitMM_cont_step cfg pr id upgrade bootstrapOk fetch i fuel2
      (by simpa using hcont 0 (by omega))]
    have hterm : waitMMPoll cfg pr upgrade bootstrapOk (fetch (i+1+k)) = some (res, evs) := by
      rw [show i+1+k = i+(k+1) by omega]; exact h
    have hcont2 : ∀ j, j < k → instContinues (fetch (i+1+j)) = true := by
      intro j hj
      have h2 := hcont (j+1) (by omega)
      rw [show i+(j+1) = i+1+j by omega] at h2
      exact h2
    rw [ih (i+1) fuel2 (by omega) hcont2 res evs hterm]
    simp [List.replicate_succ]

theorem waitMM_timeout (cfg : Config) (pr : PullRequest) (id : String)
    (upgrade bootstrapOk : Bool) (fetch : Nat → InstFetch) :
    ∀ (fuel i : Nat), (∀ j, j ≤ fuel → instContinues (fetch (i+j)) = true) →
    waitMattermostInstallation cfg pr id upgrade bootstrapOk fetch i fuel =
      (Except.error "timed out waiting for the mattermost installation complete. requesting the deletion",
       List.replicate (fuel+1) (Event.getInstallation id)
         ++ [Event.deleteInstallation (fetchedInst (fetch (i+fuel))).ID,
             Event.comment "Timed out waiting for the mattermost installation. Please check the logs."]) := by
  intro fuel
  induction fuel with
  | zero =>
    intro i h
    have h0 := h 0 (le_refl 0)
    simp only [Nat.add_zero] at h0
    simp [waitMattermostInstallation,
      waitMMPoll_none_of_continues cfg pr upgrade bootstrapOk _ h0]
  | succ fuel ih =>
    intro i h
    have h0 := h 0 (by omega)
    simp only [Nat.add_zero] at h0
    rw [waitMM_cont_step cfg pr id upgrade bootstrapOk fetch i fuel h0]
    have hcont2 : ∀ j, j ≤ fuel → instContinues (fetch (i+1+j)) = true := by
      intro j hj
      have h2 := h (j+1) (by omega)
      rw [show i+(j+1) = i+1+j by omega] at h2
      exact h2
    rw [ih (i+1) hcont2]
    rw [show i+1+fuel = i+(fuel+1) by omega]
    simp [List.replicate_succ]

/-- Recognizer of the bootstrap (initializeMattermostTestServer) event. -/
def isBootstrapEv : Event → Bool
  | Event.bootstrap _ _ => true
  | _ => false

/-- Number of bootstrap invocations recorded in a trace. -/
def bootstrapCount (tr : List Event) : Nat := (tr.filter isBootstrapEv).length

theorem bootstrapCount_append (a b : List Event) :
    bootstrapCount (a ++ b) = bootstrapCount a + bootstrapCount b := by
  simp [bootstrapCount, List.filter_append]

theorem bootstrapCount_replicate_poll (n : Nat) (id : String) :
    bootstrapCount (List.replicate n (Event.getInstallation id)) = 0 := by
  induction n with
  | zero => simp [bootstrapCount]
  | succ n ih => simpa [bootstrapCount, List.replicate_succ, isBootstrapEv] using ih

theorem filter_bootstrap_replicate (n : Nat) (e : Event) (h : isBootstrapEv e = false) :
    List.filter isBootstrapEv (List.replicate n e) = [] := by
  induction n with
  | zero => simp
  | succ n ih => simp [List.replicate_succ, List.filter_cons, h, ih]

theorem waitMMPoll_upgrade_no_bootstrap (cfg : Config) (pr : PullRequest)
    (bootstrapOk : Bool) (r : InstFetch) (res : Except String Unit) (evs : List Event)
    (h : waitMMPoll cfg pr true bootstrapOk r = some (res, evs)) :
    bootstrapCount evs = 0 := by
  cases r with
  | reqErr =>
    simp only [waitMMPoll, Option.some.injEq, Prod.mk.injEq] at h
    simp [← h.2, bootstrapCount]
  | decodeErr =>
    simp only [waitMMPoll, Option.some.injEq, Prod.mk.injEq] at h
    simp [← h.2, bootstrapCount]
  | ok inst =>
    simp only [waitMMPoll] at h
    split_ifs at h <;>
      simp only [Option.some.injEq, Prod.mk.injEq] at h <;>
      simp [← h.2, bootstrapCount, isBootstrapEv]

theorem waitMM_upgrade_no_bootstrap (cfg : Config) (pr : PullRequest) (id : String)
    (bootstrapOk : Bool) (fetch : Nat → InstFetch) :
    ∀ (fuel i : Nat),
    bootstrapCount (waitMattermostInstallation cfg pr id true bootstrapOk fetch i fuel).2 = 0 := by
  intro fuel
  induction fuel with
  | zero =>
    intro i
    cases hp : waitMMPoll cfg pr true bootstrapOk (fetch i) with
    | none => simp [waitMattermostInstallation, hp, bootstrapCount, isBootstrapEv]
    | some p =>
      obtain ⟨res, evs⟩ := p
      have := waitMMPoll_upgrade_no_bootstrap cfg pr bootstrapOk _ res evs hp
      simp [waitMattermostInstallation, hp, bootstrapCount, isBootstrapEv] at this ⊢
      exact this
  | succ fuel ih =>
    intro i
    cases hp : waitMMPoll cfg pr true bootstrapOk (fetch i) with
    | none =>
      have := ih (i+1)
      simp [waitMattermostInstallation, hp, bootstrapCount, isBootstrapEv] at this ⊢
      exact this
    | some p =>
      obtain ⟨res, evs⟩ := p
      have := waitMMPoll_upgrade_no_bootstrap cfg pr bootstrapOk _ res evs hp
      simp [waitMattermostInstallation, hp, bootstrapCount, isBootstrapEv] at this ⊢
      exact this

theorem waitK8sPoll_none_of_continues (r : ClusterFetch)
    (h : clusterContinues r = true) : waitK8sPoll r = none := by
  cases r with
  | reqErr => simp [clusterContinues] at h
  | decodeErr => simp [waitK8sPoll, zeroCluster]
  | ok c =>
    simp only [clusterContinues, Bool.and_eq_true, Bool.not_eq_true', beq_eq_false_iff_ne] at h
    simp [waitK8sPoll, h.1, h.2]

theorem waitK8s_eq_of_terminal (id : String) (fetch : Nat → ClusterFetch)
    (i fuel : Nat) (res : Except String Unit) (evs : List Event)
    (h : waitK8sPoll (fetch i) = some (res, evs)) :
    waitK8sCluster id fetch i fuel = (res, Event.getCluster id :: evs) := by
  cases fuel <;> simp [waitK8sCluster, h]

theorem waitK8s_cont_step (id : String) (fetch : Nat → ClusterFetch) (i fuel : Nat)
    (h : clusterContinues (fetch i) = true) :
    waitK8sCluster id fetch i (fuel+1) =
      ((waitK8sCluster id fetch (i+1) fuel).1,
       Event.getCluster id :: (waitK8sCluster id fetch (i+1) fuel).2) := by
  simp [waitK8sCluster, waitK8sPoll_none_of_continues _ h]

theorem waitK8s_reach (id : String) (fetch : Nat → ClusterFetch) :
    ∀ (k i fuel : Nat), k ≤ fuel →
    (∀ j, j < k → clusterContinues (fetch (i+j)) = true) →
    ∀ (res : Except String Unit) (evs : List Event),
    waitK8sPoll (fetch (i+k)) = some (res, evs) →
    waitK8sCluster id fetch i fuel =
      (res, List.replicate (k+1) (Event.getCluster id) ++ evs) := by
  intro k
  induction k with
  | zero =>
    intro i fuel _ _ res evs h
    rw [waitK8s_eq_of_terminal id fetch i fuel res evs (by simpa using h)]
    simp
  | succ k ih =>
    intro i fuel hk hcont res evs h
    obtain ⟨fuel2, rfl⟩ : ∃ f, fuel = f + 1 := ⟨fuel - 1, by omega⟩
    rw [waitK8s_cont_step id fetch i fuel2 (by simpa using hcont 0 (by omega))]
    have hterm : waitK8sPoll (fetch (i+1+k)) = some (res, evs) := by
      rw [show i+1+k = i+(k+1) by omega]; exact h
    have hcont2 : ∀ j, j < k → clusterContinues (fetch (i+1+j)) = true := by
      intro j hj
      have h2 := hcont (j+1) (by omega)
      rw [show i+(j+1) = i+1+j by omega] at h2
      exact h2
    rw [ih (i+1) fuel2 (by omega) hcont2 res evs hterm]
    simp [List.replicate_succ]

theorem waitK8sPoll_no_bootstrap (r : ClusterFetch) (res : Except String Unit)
    (evs : List Event) (h : waitK8sPoll r = some (res, evs)) :
    bootstrapCount evs = 0 := by
  cases r with
  | reqErr =>
    simp only [waitK8sPoll, Option.some.injEq, Prod.mk.injEq] at h
    simp [← h.2, bootstrapCount]
  | decodeErr =>
    simp [waitK8sPoll, zeroCluster] at h
  | ok c =>
    simp only [waitK8sPoll] at h
    split_ifs at h <;>
      simp only [Option.some.injEq, Prod.mk.injEq] at h <;>
      simp [← h.2, bootstrapCount, isBootstrapEv]

theorem waitK8s_no_bootstrap (id : String) (fetch : Nat → ClusterFetch) :
    ∀ (fuel i : Nat), bootstrapCount (waitK8sCluster id fetch i fuel).2 = 0 := by
  intro fuel
  induction fuel with
  | zero =>
    intro i
    cases hp : waitK8sPoll (fetch i) with
    | none => simp [waitK8sCluster, hp, bootstrapCount, isBootstrapEv]
    | some p =>
      obtain ⟨res, evs⟩ := p
      have := waitK8sPoll_no_bootstrap _ res evs hp
      simp [waitK8sCluster, hp, bootstrapCount, isBootstrapEv] at this ⊢
      exact this
  | succ fuel ih =>
    intro i
    cases hp : waitK8sPoll (fetch i) with
    | none =>
      have := ih (i+1)
      simp [waitK8sCluster, hp, bootstrapCount, isBootstrapEv] at this ⊢
      exact this
    | some p =>
      obtain ⟨res, evs⟩ := p
      have := waitK8sPoll_no_bootstrap _ res evs hp
      simp [waitK8sCluster, hp, bootstrapCount, isBootstrapEv] at this ⊢
      exact this

/-- An iteration of waitForImage that retries: the store returns a PR with
a long-enough sha and the registry lookup errors with a 404 text. -/
def imageRetries (storeGet : Nat → Except Unit PullRequest)
    (manifest : Nat → RegLookup) (j : Nat) : Prop :=
  (∃ pr, storeGet j = Except.ok pr ∧ 7 ≤ pr.Sha.data.length) ∧
  (∃ e, manifest j = RegLookup.err e ∧ goContains e "status=404" = true)

theorem goSlice_isSome_of_le (s : String) (h : 7 ≤ s.data.length) :
    ∃ v, goSlice s 0 7 = some v := by
  refine ⟨String.mk ((s.data.drop 0).take 7), ?_⟩
  unfold goSlice
  rw [if_pos ⟨by omega, h⟩]

theorem waitForImage_retry_step (storeGet : Nat → Except Unit PullRequest)
    (manifest : Nat → RegLookup) (i fuel : Nat)
    (h : imageRetries storeGet manifest i) :
    waitForImage storeGet manifest i (fuel+1) =
      ((waitForImage storeGet manifest (i+1) fuel).1,
       (waitForImage storeGet manifest (i+1) fuel).2 + 1) := by
  obtain ⟨⟨pr, hpr, hsha⟩, ⟨e, he, h404⟩⟩ := h
  obtain ⟨v, hv⟩ := goSlice_isSome_of_le pr.Sha hsha
  simp [waitForImage, hpr, he, h404, getInstallationVersion, hv]

theorem waitForImage_reach (storeGet : Nat → Except Unit PullRequest)
    (manifest : Nat → RegLookup) :
    ∀ (k i fuel : Nat), k < fuel →
    (∀ j, j < k → imageRetries storeGet manifest (i+j)) →
    (∀ pr, storeGet (i+k) = Except.ok pr → 7 ≤ pr.Sha.data.length →
      (manifest (i+k) = RegLookup.ok →
        waitForImage storeGet manifest i fuel = (RunResult.ok pr, k+1)) ∧
      (∀ e, manifest (i+k) = RegLookup.err e → goContains e "status=404" = false →
        waitForImage storeGet manifest i fuel =
          (RunResult.err "unable to fetch tag from docker registry", k+1))) := by
  intro k
  induction k with
  | zero =>
    intro i fuel hk hcont pr hpr hsha
    obtain ⟨fuel2, rfl⟩ : ∃ f, fuel = f + 1 := ⟨fuel - 1, by omega⟩
    obtain ⟨v, hv⟩ := goSlice_isSome_of_le pr.Sha hsha
    constructor
    · intro hok
      simp only [Nat.add_zero] at hpr hok
      simp [waitForImage, hpr, hok, getInstallationVersion, hv]
    · intro e he h404
      simp only [Nat.add_zero] at hpr he
      simp [waitForImage, hpr, he, h404, getInstallationVersion, hv]
  | succ k ih =>
    intro i fuel hk hcont pr hpr hsha
    obtain ⟨fuel2, rfl⟩ : ∃ f, fuel = f + 1 := ⟨fuel - 1, by omega⟩
    have hstep := waitForImage_retry_step storeGet manifest i fuel2
      (by simpa using hcont 0 (by omega))
    have hcont2 : ∀ j, j < k → imageRetries storeGet manifest (i+1+j) := by
      intro j hj
      have h2 := hcont (j+1) (by omega)
      rw [show i+(j+1) = i+1+j by omega] at h2
      exact h2
    have hpr2 : storeGet (i+1+k) = Except.ok pr := by
      rw [show i+1+k = i+(k+1) by omega]; exact hpr
    have := ih (i+1) fuel2 (by omega) hcont2 pr hpr2 hsha
    constructor
    · intro hok
      rw [show i+(k+1) = i+1+k by omega] at hok
      rw [hstep, (this.1 hok)]
    · intro e he h404
      rw [show i+(k+1) = i+1+k by omega] at he
      rw [hstep, (this.2 e he h404)]

/-- Example pull request for concrete runs. -/
def prEx : PullRequest :=
  { RepoOwner := "mattermost", RepoName := "mattermost-server",
    FullName := "mattermost/mattermost-server", Number := 12345,
    Username := "dev", Ref := "patch-1", Sha := "0123456789abcdef",
    Labels := ["Setup SpinWick"], State := "open", BuildStatus := "",
    BuildConclusion := "", BuildLink := "", URL := "" }

/-- Example configuration for concrete runs. -/
def cfgEx : Config :=
  { ProvisionerServer := "http://provisioner.internal",
    DNSNameTestServer := "test.mattermost.cloud",
    SetupSpinmintFailedMessage := "Failed to setup the SpinWick server",
    SetupSpinWick := "Setup SpinWick",
    SetupSpinWickHA := "Setup SpinWick HA" }

/-- An installation observed in state creation-failed. -/
def instFailedEx : Installation :=
  { ID := "inst-1", OwnerID := "mattermost-server-pr-12345", Version := "0123456",
    DNS := "", Size := "miniSingleton", Affinity := "multitenant", GroupID := none,
    State := "creation-failed", CreateAt := 0, DeleteAt := 0,
    LockAcquiredBy := none, LockAcquiredAt := 0 }

/-- An installation observed in state stable. -/
def instStableEx : Installation := { instFailedEx with State := "stable" }

/-- An installation observed still creating. -/
def instCreatingEx : Installation := { instFailedEx with State := "creating" }

/-- C1.  The claim is refuted on its upgrade half: waitMattermostInstallation
runs the creation-failed branch (comment, destroyMMInstallation, error
return) without consulting the upgrade flag, so the upgrade flow called
from updateSpinWick does issue a delete request for the remote
installation when it observes creation-failed.  This closed run evaluates
the upgrade flow (upgrade = true) against a fetch that reports
creation-failed and finds the delete request in the trace. -/
theorem C1_counterexample :
    Event.deleteInstallation "inst-1" ∈
      (waitMattermostInstallation cfgEx prEx "inst-1" true true
        (fun _ => InstFetch.ok instFailedEx) 0 5).2 ∧
    (waitMattermostInstallation cfgEx prEx "inst-1" true true
        (fun _ => InstFetch.ok instFailedEx) 0 5).1 =
      Except.error "error creating mattermost installation" :=
  ⟨by decide, rfl⟩

/-- C1 (amended).  For both flows — upgrade = true and upgrade = false
alike — observing creation-failed issues a delete request for the fetched
installation id and returns a creation error, and reaching the deadline
with the installation still in a non-terminal state issues a delete
request and returns a timeout error.  The fresh-create half of the
original claim holds; the upgrade half holds with "never" replaced by
"always, exactly as on the create flow". -/
theorem C1_amended (cfg : Config) (pr : PullRequest) (instId : String)
    (upgrade bootstrapOk : Bool) (fetch : Nat → InstFetch) :
    (∀ (k fuel : Nat) (inst : Installation), k ≤ fuel →
      (∀ j, j < k → instContinues (fetch j) = true) →
      fetch k = InstFetch.ok inst → inst.State = "creation-failed" →
      (waitMattermostInstallation cfg pr instId upgrade bootstrapOk fetch 0 fuel).1 =
        Except.error "error creating mattermost installation" ∧
      Event.deleteInstallation inst.ID ∈
        (waitMattermostInstallation cfg pr instId upgrade bootstrapOk fetch 0 fuel).2) ∧
    (∀ (fuel : Nat) (inst : Installation),
      (∀ j, j ≤ fuel → instContinues (fetch j) = true) →
      fetch fuel = InstFetch.ok inst →
      (waitMattermostInstallation cfg pr instId upgrade bootstrapOk fetch 0 fuel).1 =
        Except.error "timed out waiting for the mattermost installation complete. requesting the deletion" ∧
      Event.deleteInstallation inst.ID ∈
        (waitMattermostInstallation cfg pr instId upgrade bootstrapOk fetch 0 fuel).2) := by
  constructor
  · intro k fuel inst hk hcont hfetch hstate
    have hpoll : waitMMPoll cfg pr upgrade bootstrapOk (fetch (0+k)) =
        some (Except.error "error creating mattermost installation",
          [Event.comment "Failed to create mattermost installation.",
           Event.deleteInstallation inst.ID]) := by
      simp only [Nat.zero_add, hfetch]
      simp [waitMMPoll, hstate]
    rw [waitMM_reach cfg pr instId upgrade bootstrapOk fetch k 0 fuel hk
      (by simpa using hcont) _ _ hpoll]
    simp
  · intro fuel inst hcont hfetch
    rw [waitMM_timeout cfg pr instId upgrade bootstrapOk fetch fuel 0
      (by simpa using hcont)]
    simp only [Nat.zero_add, hfetch]
    simp [fetchedInst]

/-- Witness for C1 (amended): a concrete fresh-create run observing
creation-failed on the first poll returns the creation error and has the
delete request in its trace. -/
theorem C1_amended_witness :
    (waitMattermostInstallation cfgEx prEx "inst-1" false true
        (fun _ => InstFetch.ok instFailedEx) 0 5).1 =
      Except.error "error creating mattermost installation" ∧
    Event.deleteInstallation instFailedEx.ID ∈
      (waitMattermostInstallation cfgEx prEx "inst-1" false true
        (fun _ => InstFetch.ok instFailedEx) 0 5).2 :=
  (C1_amended cfgEx prEx "inst-1" false true (fun _ => InstFetch.ok instFailedEx)).1
    0 5 instFailedEx (by omega) (by omega) rfl rfl

/-- A stable cluster for concrete runs. -/
def clusterStableEx : Cluster := { zeroCluster with ID := "cluster-1", State := "stable" }

/-- A cluster fetch oracle whose first response fails to decode and whose
second response is a stable cluster. -/
def k8sFetchEx : Nat → ClusterFetch
  | 0 => ClusterFetch.decodeErr
  | _ => ClusterFetch.ok clusterStableEx

/-- C2.  The claim is refuted on its waitK8sCluster half: there the decode
error is only logged (the `err` of json.Decode is never returned), the
state checks run against the zero-valued cluster, and the loop sleeps and
polls again.  This closed run decodes garbage on the first poll, keeps
polling, and succeeds on the second poll — so the operation neither
aborted nor returned an error. -/
theorem C2_counterexample :
    (waitK8sCluster "cluster-1" k8sFetchEx 0 3).1 = Except.ok () ∧
    (waitK8sCluster "cluster-1" k8sFetchEx 0 3).2 =
      [Event.getCluster "cluster-1", Event.getCluster "cluster-1",
       Event.comment "Kubernetes cluster created. Now will deploy Mattermost... Hang on!"] :=
  ⟨rfl, rfl⟩

/-- C2 (amended).  waitMattermostInstallation aborts immediately with an
error on a decode failure, with no further polling and no mutation
recorded; waitK8sCluster only logs a decode failure and continues polling
(the next iteration runs on the shifted oracle). -/
theorem C2_amended (cfg : Config) (pr : PullRequest) (instId clusterId : String)
    (upgrade bootstrapOk : Bool) (ifetch : Nat → InstFetch)
    (cfetch : Nat → ClusterFetch) :
    (∀ (i fuel : Nat), ifetch i = InstFetch.decodeErr →
      waitMattermostInstallation cfg pr instId upgrade bootstrapOk ifetch i fuel =
        (Except.error "Error decoding installation", [Event.getInstallation instId])) ∧
    (∀ (i fuel : Nat), cfetch i = ClusterFetch.decodeErr →
      waitK8sCluster clusterId cfetch i (fuel+1) =
        ((waitK8sCluster clusterId cfetch (i+1) fuel).1,
         Event.getCluster clusterId :: (waitK8sCluster clusterId cfetch (i+1) fuel).2)) := by
  constructor
  · intro i fuel h
    have hpoll : waitMMPoll cfg pr upgrade bootstrapOk (ifetch i) =
        some (Except.error "Error decoding installation", []) := by
      rw [h]; rfl
    simpa using waitMM_eq_of_terminal cfg pr instId upgrade bootstrapOk ifetch i fuel _ _ hpoll
  · intro i fuel h
    exact waitK8s_cont_step clusterId cfetch i fuel (by rw [h]; rfl)

/-- Witness for C2 (amended): concrete runs of both conjuncts. -/
theorem C2_amended_witness :
    (waitMattermostInstallation cfgEx prEx "inst-1" false true
        (fun _ => InstFetch.decodeErr) 0 5 =
      (Except.error "Error decoding installation", [Event.getInstallation "inst-1"])) ∧
    (waitK8sCluster "cluster-1" k8sFetchEx 0 3 =
      ((waitK8sCluster "cluster-1" k8sFetchEx 1 2).1,
       Event.getCluster "cluster-1" :: (waitK8sCluster "cluster-1" k8sFetchEx 1 2).2)) :=
  ⟨(C2_amended cfgEx prEx "inst-1" "cluster-1" false true
      (fun _ => InstFetch.decodeErr) k8sFetchEx).1 0 5 rfl,
   (C2_amended cfgEx prEx "inst-1" "cluster-1" false true
      (fun _ => InstFetch.decodeErr) k8sFetchEx).2 0 2 rfl⟩

/-- C4.  The claim matches the spec ("errors are logged, not propagated";
"deleting a non-existent installation must not be treated as fatal"), but
the code defers `resp.Body.Close()` after merely logging the error of
makeRequest: when the DELETE fails at the transport level, `resp` is nil
and the deferred close dereferences a nil pointer, so destroySpinWick
panics and the persisted record is never removed.  This run evaluates the
failing input (a transport-level delete failure) and, for contrast, a 404
response, where the claim's idempotence does hold because the status code
is ignored. -/
theorem C4_bug_eval :
    (destroySpinWick "inst-9" HTTPResult.transportErr).1 = DestroyOutcome.panicked ∧
    Event.removeRecord "inst-9" ∉ (destroySpinWick "inst-9" HTTPResult.transportErr).2 ∧
    Event.deleteInstallation "inst-9" ∈ (destroySpinWick "inst-9" HTTPResult.transportErr).2 ∧
    (destroySpinWick "inst-9" (HTTPResult.resp 404)).1 = DestroyOutcome.completed ∧
    (destroySpinWick "inst-9" (HTTPResult.resp 404)).2 =
      [Event.deleteInstallation "inst-9", Event.removeRecord "inst-9"] := by
  decide

/-- A repository config entry with a given status context. -/
def repoEx (context : String) : Repository :=
  { Owner := "mattermost", Name := "mattermost-webapp",
    BuildStatusContext := context, JenkinsServer := "" }

/-- A webapp pull request with a completed, successful check run. -/
def webappPrEx : PullRequest :=
  { prEx with
    RepoName := "mattermost-webapp"
    BuildStatus := "completed"
    BuildConclusion := "success" }

/-- A Jenkins environment where every call fails (unused by the webapp
branch). -/
def jenkinsEx : JenkinsEnv :=
  { getJob := fun _ => Except.error (), getBuild := fun _ _ => Except.error () }

/-- C3.  The claim is refuted: two waitForBuild runs that differ only in
the repository's configured status context read the same signal and reach
the same decision, because waitForBuild selects the mechanism by the
repository name and never consults the configured context.  The two
server configurations below differ only in the BuildStatusContext of the
single configured repository, yet the iteration outcome is identical. -/
theorem C3_counterexample :
    ServerCfg.mk [repoEx "ci/circleci"] ≠ ServerCfg.mk [repoEx "ci/jenkins"] ∧
    waitForBuildIter (ServerCfg.mk [repoEx "ci/circleci"]) jenkinsEx
      (Except.ok prEx) (fun _ => Except.ok webappPrEx) =
    waitForBuildIter (ServerCfg.mk [repoEx "ci/jenkins"]) jenkinsEx
      (Except.ok prEx) (fun _ => Except.ok webappPrEx) :=
  ⟨by decide, rfl⟩

/-- C3 (amended).  The terminal decision of waitForBuild is independent
of the server configuration, hence of the configured status context; the
signal it reads is selected by the repository name: the webapp branch
reads only the check-run status/conclusion fields (its decision is
invariant under the build link and under the Jenkins environment), the
branch for every other repository reads only the build link, repository
name and Jenkins build (its decision is invariant under the status and
conclusion fields).  The configured context key affects only which commit
status or check run checkBuildLink matches. -/
theorem C3_amended :
    (∀ (s1 s2 : ServerCfg) (j : JenkinsEnv) (st : Except Unit PullRequest)
       (gh : PullRequest → Except Unit PullRequest),
       waitForBuildIter s1 j st gh = waitForBuildIter s2 j st gh) ∧
    (∀ (pr : PullRequest) (l : String),
       webappDecision { pr with BuildLink := l } = webappDecision pr) ∧
    (∀ (j1 j2 : JenkinsEnv) (pr : PullRequest),
       webappDecision pr = webappDecision pr) ∧
    (∀ (j : JenkinsEnv) (pr : PullRequest) (a b : String),
       jenkinsDecision j { pr with BuildStatus := a, BuildConclusion := b } =
         jenkinsDecision j pr) ∧
    (∀ (s : ServerCfg) (j : JenkinsEnv) (pr0 pr : PullRequest),
       waitForBuildIter s j (Except.ok pr0) (fun _ => Except.ok pr) =
         buildIterOf pr (if pr.RepoName = "mattermost-webapp" then webappDecision pr
           else jenkinsDecision j pr)) ∧
    (checkBuildLinkIter "ctx-a" [GHStatus.mk "ctx-a" "url-a", GHStatus.mk "ctx-b" "url-b"] [] =
        some "url-a" ∧
     checkBuildLinkIter "ctx-b" [GHStatus.mk "ctx-a" "url-a", GHStatus.mk "ctx-b" "url-b"] [] =
        some "url-b") := by
  refine ⟨fun s1 s2 j st gh => rfl, fun pr l => rfl, fun j1 j2 pr => rfl,
    fun j pr a b => rfl, fun s j pr0 pr => ?_, by decide, by decide⟩
  simp only [waitForBuildIter]
  split <;> rfl

/-- C5.  For a poll of the CI signal of the mattermost-webapp repository
in waitForBuild: completed + success decides success, completed with any
other conclusion decides failure, an unknown status string decides a
(non-retryable) failure — and the surrounding loop then returns after
that single iteration — and in_progress keeps polling. -/
theorem C5_webapp_poll (s : ServerCfg) (j : JenkinsEnv) (pr0 pr : PullRequest)
    (hrepo : pr.RepoName = "mattermost-webapp") :
    (pr.BuildStatus = "completed" → pr.BuildConclusion = "success" →
      waitForBuildIter s j (Except.ok pr0) (fun _ => Except.ok pr) = BuildIter.done pr) ∧
    (pr.BuildStatus = "completed" → pr.BuildConclusion ≠ "success" →
      waitForBuildIter s j (Except.ok pr0) (fun _ => Except.ok pr) =
        BuildIter.failed "build failed") ∧
    (pr.BuildStatus ≠ "completed" → pr.BuildStatus ≠ "in_progress" →
      waitForBuildIter s j (Except.ok pr0) (fun _ => Except.ok pr) =
        BuildIter.failed ("unknown build status " ++ pr.BuildStatus)) ∧
    (pr.BuildStatus = "in_progress" →
      waitForBuildIter s j (Except.ok pr0) (fun _ => Except.ok pr) = BuildIter.again pr) ∧
    (pr.BuildStatus ≠ "completed" → pr.BuildStatus ≠ "in_progress" →
      ∀ (jenkinsO : Nat → JenkinsEnv) (fuel : Nat),
      waitForBuild s jenkinsO (fun _ => Except.ok pr0) (fun _ _ => Except.ok pr) 0 (fuel+1) =
        (RunResult.err ("unknown build status " ++ pr.BuildStatus), 1)) := by
  have hin : pr.BuildStatus = "in_progress" → pr.BuildStatus ≠ "completed" := by
    intro h; rw [h]; decide
  refine ⟨?_, ?_, ?_, ?_, ?_⟩
  · intro h1 h2
    simp [waitForBuildIter, hrepo, webappDecision, h1, h2, buildIterOf,
      show pr.BuildStatus ≠ "in_progress" by rw [h1]; decide]
  · intro h1 h2
    simp [waitForBuildIter, hrepo, webappDecision, h1, h2, buildIterOf,
      show pr.BuildStatus ≠ "in_progress" by rw [h1]; decide]
  · intro h1 h2
    simp [waitForBuildIter, hrepo, webappDecision, h1, h2, buildIterOf]
  · intro h1
    simp [waitForBuildIter, hrepo, webappDecision, h1, buildIterOf]
  · intro h1 h2 jenkinsO fuel
    have hiter : waitForBuildIter s (jenkinsO 0) (Except.ok pr0) (fun _ => Except.ok pr) =
        BuildIter.failed ("unknown build status " ++ pr.BuildStatus) := by
      simp [waitForBuildIter, hrepo, webappDecision, h1, h2, buildIterOf]
    simp [waitForBuild, hiter]

/-- Witness for C5: a concrete webapp pull request with an unknown build
status fails without further polling. -/
theorem C5_webapp_poll_witness :
    waitForBuild (ServerCfg.mk [repoEx "ci/circleci"]) (fun _ => jenkinsEx)
      (fun _ => Except.ok prEx)
      (fun _ _ => Except.ok { webappPrEx with BuildStatus := "queued" }) 0 4 =
      (RunResult.err ("unknown build status " ++
        ({ webappPrEx with BuildStatus := "queued" } : PullRequest).BuildStatus), 1) :=
  (C5_webapp_poll (ServerCfg.mk [repoEx "ci/circleci"]) jenkinsEx prEx
      { webappPrEx with BuildStatus := "queued" } rfl).2.2.2.2
    (by decide) (by decide) (fun _ => jenkinsEx) 3

/-- A store oracle that always returns the example PR. -/
def storeGetEx : Nat → Except Unit PullRequest := fun _ => Except.ok prEx

/-- A registry oracle that answers 404 for the first three polls and then
succeeds. -/
def manifestEx : Nat → RegLookup := fun j =>
  if j < 3 then RegLookup.err "status=404" else RegLookup.ok

/-- C6.  In waitForImage, every registry lookup whose error text carries
status=404 is retried on the next interval and never surfaced; the first
lookup that completes without error returns success with exactly the 404
polls plus one iteration executed; and a lookup error without status=404
aborts on that very iteration with the fatal wrap error. -/
theorem C6_waitForImage (storeGet : Nat → Except Unit PullRequest)
    (manifest : Nat → RegLookup) (k fuel : Nat) (hk : k < fuel)
    (hretry : ∀ j, j < k → imageRetries storeGet manifest j)
    (pr : PullRequest) (hpr : storeGet k = Except.ok pr)
    (hsha : 7 ≤ pr.Sha.data.length) :
    (manifest k = RegLookup.ok →
      waitForImage storeGet manifest 0 fuel = (RunResult.ok pr, k+1)) ∧
    (∀ e, manifest k = RegLookup.err e → goContains e "status=404" = false →
      waitForImage storeGet manifest 0 fuel =
        (RunResult.err "unable to fetch tag from docker registry", k+1)) := by
  have h := waitForImage_reach storeGet manifest k 0 fuel hk
    (by simpa using hretry) pr (by simpa using hpr) hsha
  exact ⟨fun hok => h.1 (by simpa using hok),
    fun e he h404 => h.2 e (by simpa using he) h404⟩

/-- Witness for C6: three consecutive 404 answers are retried and the
fourth poll succeeds (scenario D), without the 404 escalating. -/
theorem C6_waitForImage_witness :
    waitForImage storeGetEx manifestEx 0 6 = (RunResult.ok prEx, 4) :=
  (C6_waitForImage storeGetEx manifestEx 3 6 (by omega)
    (fun j hj => ⟨⟨prEx, rfl, by decide⟩,
      ⟨"status=404", by simp [manifestEx, hj], by decide⟩⟩)
    prEx rfl (by decide)).1 (by decide)

theorem goSlice_take7 (s : String) (h : 7 ≤ s.data.length) :
    goSlice s 0 7 = some (String.mk (s.data.take 7)) := by
  unfold goSlice
  rw [if_pos ⟨by omega, h⟩, List.drop_zero]

/-- C8.  The create-installation request built by createSpinWick has
owner id lower(repoName-pr-number), version the first 7 characters of the
head commit sha, DNS the owner id joined with the configured base domain
by a dot, and affinity multitenant; it is the first recorded action of
every run. -/
theorem C8_create_request_fields (cfg : Config) (pr : PullRequest) (size : String)
    (env : CreateEnv) (hsha : 7 ≤ pr.Sha.data.length) :
    (createSpinWick cfg pr size env).2.head? =
      some (Event.createInstallationReq
        { OwnerID := (pr.RepoName ++ "-pr-" ++ toString pr.Number).toLower
          Version := String.mk (pr.Sha.data.take 7)
          DNS := (pr.RepoName ++ "-pr-" ++ toString pr.Number).toLower
            ++ "." ++ cfg.DNSNameTestServer
          Size := size
          Affinity := "multitenant" }) := by
  have hgs := goSlice_take7 pr.Sha hsha
  rcases hc : env.createResp with _ | _ | i0
  · simp [createSpinWick, hgs, hc, makePullRequestID]
  · simp [createSpinWick, hgs, hc, makePullRequestID]
  · rcases hf : env.firstFetch with _ | _ | i1
    · simp [createSpinWick, hgs, hc, hf, makePullRequestID]
    · simp [createSpinWick, hgs, hc, hf, makePullRequestID]
    · by_cases hst : i1.State = "creation-no-compatible-clusters"
      · cases hcp : (requestK8sClusterCreation env.clusterResp env.clusterFetch env.clusterFuel).1 with
        | error e => simp [createSpinWick, hgs, hc, hf, hst, hcp, makePullRequestID]
        | ok u =>
          cases hw : (waitMattermostInstallation cfg pr i0.ID false env.bootstrapOk
              env.instFetch 0 env.instFuel).1 with
          | error e => simp [createSpinWick, hgs, hc, hf, hst, hcp, hw, makePullRequestID]
          | ok u2 => simp [createSpinWick, hgs, hc, hf, hst, hcp, hw, makePullRequestID]
      · cases hw : (waitMattermostInstallation cfg pr i0.ID false env.bootstrapOk
            env.instFetch 0 env.instFuel).1 with
        | error e => simp [createSpinWick, hgs, hc, hf, hst, hw, makePullRequestID]
        | ok u2 => simp [createSpinWick, hgs, hc, hf, hst, hw, makePullRequestID]

/-- Witness for C8: the concrete request of a concrete run. -/
theorem C8_create_request_fields_witness :
    (createSpinWick cfgEx prEx "miniSingleton"
      { createResp := InstFetch.reqErr, firstFetch := InstFetch.reqErr,
        clusterResp := ClusterFetch.reqErr, clusterFetch := fun _ => ClusterFetch.reqErr,
        clusterFuel := 0, instFetch := fun _ => InstFetch.reqErr, instFuel := 0,
        bootstrapOk := true }).2.head? =
      some (Event.createInstallationReq
        { OwnerID := (prEx.RepoName ++ "-pr-" ++ toString prEx.Number).toLower
          Version := String.mk (prEx.Sha.data.take 7)
          DNS := (prEx.RepoName ++ "-pr-" ++ toString prEx.Number).toLower
            ++ "." ++ cfgEx.DNSNameTestServer
          Size := "miniSingleton"
          Affinity := "multitenant" }) :=
  C8_create_request_fields cfgEx prEx "miniSingleton" _ (by decide)

/-- C10.  getInstallationVersion returns exactly the first seven
characters of the head commit sha whenever the sha has at least seven,
and is undefined (Go panics on the slice) otherwise; under the same
precondition the slice expressions inside createSpinWick and
updateSpinWick are in bounds, so neither run can end in the slice panic,
while a shorter sha makes createSpinWick hit the panic immediately. -/
theorem C10_sha_precondition (pr : PullRequest) :
    (7 ≤ pr.Sha.data.length →
      getInstallationVersion pr = some (String.mk (pr.Sha.data.take 7))) ∧
    (pr.Sha.data.length < 7 → getInstallationVersion pr = none) ∧
    (7 ≤ pr.Sha.data.length → ∀ (cfg : Config) (size : String) (env : CreateEnv) (m : String),
      (createSpinWick cfg pr size env).1 ≠ RunResult.panicked m) ∧
    (7 ≤ pr.Sha.data.length → ∀ (cfg : Config) (env : UpdateEnv) (m : String),
      (updateSpinWick cfg pr env).1 ≠ RunResult.panicked m) ∧
    (pr.Sha.data.length < 7 → ∀ (cfg : Config) (size : String) (env : CreateEnv),
      (createSpinWick cfg pr size env).1 = RunResult.panicked "slice bounds out of range") := by
  have hnone : pr.Sha.data.length < 7 → goSlice pr.Sha 0 7 = none := by
    intro h
    unfold goSlice
    rw [if_neg]
    intro hcon
    omega
  refine ⟨fun h => goSlice_take7 pr.Sha h, fun h => hnone h, ?_, ?_, ?_⟩
  · intro h cfg size env m
    have hgs := goSlice_take7 pr.Sha h
    rcases hc : env.createResp with _ | _ | i0
    · simp [createSpinWick, hgs, hc]
    · simp [createSpinWick, hgs, hc]
    · rcases hf : env.firstFetch with _ | _ | i1
      · simp [createSpinWick, hgs, hc, hf]
      · simp [createSpinWick, hgs, hc, hf]
      · by_cases hst : i1.State = "creation-no-compatible-clusters"
        · cases hcp : (requestK8sClusterCreation env.clusterResp env.clusterFetch env.clusterFuel).1 with
          | error e => simp [createSpinWick, hgs, hc, hf, hst, hcp]
          | ok u =>
            cases hw : (waitMattermostInstallation cfg pr i0.ID false env.bootstrapOk
                env.instFetch 0 env.instFuel).1 with
            | error e => simp [createSpinWick, hgs, hc, hf, hst, hcp, hw]
            | ok u2 => simp [createSpinWick, hgs, hc, hf, hst, hcp, hw]
        · cases hw : (waitMattermostInstallation cfg pr i0.ID false env.bootstrapOk
              env.instFetch 0 env.instFuel).1 with
          | error e => simp [createSpinWick, hgs, hc, hf, hst, hw]
          | ok u2 => simp [createSpinWick, hgs, hc, hf, hst, hw]
  · intro h cfg env m
    have hgs := goSlice_take7 pr.Sha h
    rcases hbl : env.buildLinkResult with _ | link
    · simp [updateSpinWick, hbl] <;> split <;> simp
    · by_cases hlk : link = ""
      · simp [updateSpinWick, hbl, hlk] <;> split <;> simp
      · rcases hget : env.spinmintGet with _ | _ | instId
        · simp [updateSpinWick, hbl, hlk, hget] <;> split <;> simp
        · simp [updateSpinWick, hbl, hlk, hget] <;> split <;> simp
        · rcases hbc : env.buildComplete with _ | _
          · simp [updateSpinWick, hbl, hlk, hget, hbc] <;> split <;> simp
          · rcases hput : env.putResp with _ | status
            · simp [updateSpinWick, hbl, hlk, hget, hbc, hgs, hput] <;> split <;> simp
            · by_cases h202 : status = 202
              · cases hw : (waitMattermostInstallation cfg pr instId true env.bootstrapOk
                    env.instFetch 0 env.instFuel).1 with
                | error e =>
                  simp [updateSpinWick, hbl, hlk, hget, hbc, hgs, hput, h202, hw] <;>
                    split <;> simp
                | ok u =>
                  simp [updateSpinWick, hbl, hlk, hget, hbc, hgs, hput, h202, hw] <;>
                    split <;> simp
              · simp [updateSpinWick, hbl, hlk, hget, hbc, hgs, hput, h202] <;>
                  split <;> simp
  · intro h cfg size env
    simp [createSpinWick, hnone h]

/-- Witness for C10: the seven-character version of the example sha, and
undefinedness on a three-character sha. -/
theorem C10_sha_precondition_witness :
    getInstallationVersion prEx = some (String.mk (prEx.Sha.data.take 7)) ∧
    getInstallationVersion { prEx with Sha := "abc" } = none :=
  ⟨(C10_sha_precondition prEx).1 (by decide),
   (C10_sha_precondition { prEx with Sha := "abc" }).2.1 (by decide)⟩

theorem waitMM_trace_cons (cfg : Config) (pr : PullRequest) (id : String)
    (upgrade bootstrapOk : Bool) (fetch : Nat → InstFetch) (i fuel : Nat) :
    ∃ t, (waitMattermostInstallation cfg pr id upgrade bootstrapOk fetch i fuel).2 =
      Event.getInstallation id :: t := by
  cases fuel with
  | zero =>
    cases hp : waitMMPoll cfg pr upgrade bootstrapOk (fetch i) with
    | none =>
      exact ⟨[Event.deleteInstallation (fetchedInst (fetch i)).ID,
        Event.comment "Timed out waiting for the mattermost installation. Please check the logs."],
        by simp [waitMattermostInstallation, hp]⟩
    | some p => exact ⟨p.2, by simp [waitMattermostInstallation, hp]⟩
  | succ fuel =>
    cases hp : waitMMPoll cfg pr upgrade bootstrapOk (fetch i) with
    | none =>
      exact ⟨(waitMattermostInstallation cfg pr id upgrade bootstrapOk fetch (i+1) fuel).2,
        by simp [waitMattermostInstallation, hp]⟩
    | some p => exact ⟨p.2, by simp [waitMattermostInstallation, hp]⟩

/-- C9.  Once updateSpinWick has issued the PUT upgrade request, a
response with HTTP status other than 202 short-circuits: the run ends
with the user-visible failure comment and its whole trace after the PUT
is that single comment — no installation poll happens; a 202 response is
followed by the waitMattermostInstallation polling trace, which always
contains at least one installation poll. -/
theorem C9_upgrade_put_gate (cfg : Config) (pr : PullRequest) (env : UpdateEnv)
    (instId link : String)
    (hlabel : (pr.Labels.contains cfg.SetupSpinWick
      || pr.Labels.contains cfg.SetupSpinWickHA) = true)
    (hlink : env.buildLinkResult = Except.ok link) (hne : link ≠ "")
    (hget : env.spinmintGet = SpinmintGet.found instId)
    (hbuild : env.buildComplete = Except.ok ())
    (hsha : 7 ≤ pr.Sha.data.length) :
    (∀ status, env.putResp = HTTPResult.resp status → status ≠ 202 →
      (updateSpinWick cfg pr env).2 =
        [Event.comment "New commit detected. SpinWick upgrade will occur after the build is successful.",
         Event.putUpgrade instId (String.mk (pr.Sha.data.take 7)),
         Event.comment "Error doing the upgrade process. Please remove the label and try again."]) ∧
    (env.putResp = HTTPResult.resp 202 →
      (∃ t, (updateSpinWick cfg pr env).2 =
        Event.comment "New commit detected. SpinWick upgrade will occur after the build is successful."
          :: Event.putUpgrade instId (String.mk (pr.Sha.data.take 7))
          :: ((waitMattermostInstallation cfg pr instId true env.bootstrapOk
                env.instFetch 0 env.instFuel).2 ++ t)) ∧
      Event.getInstallation instId ∈ (updateSpinWick cfg pr env).2) := by
  have hgs := goSlice_take7 pr.Sha hsha
  have hlab : ¬ (cfg.SetupSpinWick ∉ pr.Labels ∧ cfg.SetupSpinWickHA ∉ pr.Labels) := by
    have h2 := hlabel
    simp only [Bool.or_eq_true] at h2
    rcases h2 with h2 | h2 <;> simp at h2 <;> tauto
  constructor
  · intro status hput hstatus
    simp [updateSpinWick, hlab, hlink, hne, hget, hbuild, hgs, hput, hstatus]
  · intro hput
    cases hw : (waitMattermostInstallation cfg pr instId true env.bootstrapOk
        env.instFetch 0 env.instFuel).1 with
    | error e =>
      have htr : (updateSpinWick cfg pr env).2 =
          Event.comment "New commit detected. SpinWick upgrade will occur after the build is successful."
            :: Event.putUpgrade instId (String.mk (pr.Sha.data.take 7))
            :: ((waitMattermostInstallation cfg pr instId true env.bootstrapOk
                  env.instFetch 0 env.instFuel).2 ++ [Event.comment cfg.SetupSpinmintFailedMessage]) := by
        simp [updateSpinWick, hlab, hlink, hne, hget, hbuild, hgs, hput, hw]
      refine ⟨⟨_, htr⟩, ?_⟩
      obtain ⟨t0, ht0⟩ := waitMM_trace_cons cfg pr instId true env.bootstrapOk env.instFetch 0 env.instFuel
      rw [htr, ht0]
      simp
    | ok u =>
      have htr : (updateSpinWick cfg pr env).2 =
          Event.comment "New commit detected. SpinWick upgrade will occur after the build is successful."
            :: Event.putUpgrade instId (String.mk (pr.Sha.data.take 7))
            :: ((waitMattermostInstallation cfg pr instId true env.bootstrapOk
                  env.instFetch 0 env.instFuel).2 ++ []) := by
        simp [updateSpinWick, hlab, hlink, hne, hget, hbuild, hgs, hput, hw]
      refine ⟨⟨_, htr⟩, ?_⟩
      obtain ⟨t0, ht0⟩ := waitMM_trace_cons cfg pr instId true env.bootstrapOk env.instFetch 0 env.instFuel
      rw [htr, ht0]
      simp

/-- Witness for C9: a concrete PUT answered 500 short-circuits with the
failure comment and no poll. -/
theorem C9_upgrade_put_gate_witness :
    (updateSpinWick cfgEx prEx
      { buildLinkResult := Except.ok "http://jenkins/build/1",
        spinmintGet := SpinmintGet.found "inst-1", buildComplete := Except.ok (),
        putResp := HTTPResult.resp 500, instFetch := fun _ => InstFetch.ok instStableEx,
        instFuel := 5, bootstrapOk := true }).2 =
      [Event.comment "New commit detected. SpinWick upgrade will occur after the build is successful.",
       Event.putUpgrade "inst-1" (String.mk (prEx.Sha.data.take 7)),
       Event.comment "Error doing the upgrade process. Please remove the label and try again."] :=
  (C9_upgrade_put_gate cfgEx prEx _ "inst-1" "http://jenkins/build/1"
    (by decide) rfl (by decide) rfl rfl (by decide)).1 500 rfl (by decide)

/-- An installation observed in state creation-no-compatible-clusters. -/
def instNoClustersEx : Installation :=
  { instFailedEx with State := "creation-no-compatible-clusters" }

/-- A create environment exercising the no-compatible-clusters path with
a cluster that stabilizes and an installation that stabilizes. -/
def createEnvEx : CreateEnv :=
  { createResp := InstFetch.ok instCreatingEx
    firstFetch := InstFetch.ok instNoClustersEx
    clusterResp := ClusterFetch.ok clusterStableEx
    clusterFetch := fun _ => ClusterFetch.ok clusterStableEx
    clusterFuel := 5
    instFetch := fun _ => InstFetch.ok instStableEx
    instFuel := 5
    bootstrapOk := true }

/-- C7.  On a fresh create whose first post-create fetch reports
creation-no-compatible-clusters, the cluster creation is requested and
awaited synchronously before any installation poll (the whole
requestK8sClusterCreation trace precedes the waitMattermostInstallation
trace); when the installation then reaches stable, the environment
bootstrap is recorded exactly once in the run's trace; and the upgrade
path (upgrade = true) never records a bootstrap, for any oracle. -/
theorem C7_cluster_then_bootstrap_once (cfg : Config) (pr : PullRequest)
    (size : String) (env : CreateEnv) (i0 i1 inst : Installation) (c cst : Cluster)
    (hsha : 7 ≤ pr.Sha.data.length)
    (hc : env.createResp = InstFetch.ok i0)
    (hf : env.firstFetch = InstFetch.ok i1)
    (hstate : i1.State = "creation-no-compatible-clusters")
    (hclresp : env.clusterResp = ClusterFetch.ok c)
    (kc : Nat) (hkc : kc ≤ env.clusterFuel)
    (hccont : ∀ j, j < kc → clusterContinues (env.clusterFetch j) = true)
    (hcs : env.clusterFetch kc = ClusterFetch.ok cst)
    (hcstate : cst.State = "stable")
    (ki : Nat) (hki : ki ≤ env.instFuel)
    (hicont : ∀ j, j < ki → instContinues (env.instFetch j) = true)
    (his : env.instFetch ki = InstFetch.ok inst)
    (histate : inst.State = "stable")
    (hboot : env.bootstrapOk = true) :
    (createSpinWick cfg pr size env).1 = RunResult.ok i0.ID ∧
    (∃ req, (createSpinWick cfg pr size env).2 =
      Event.createInstallationReq req :: Event.getInstallation i0.ID ::
        ((requestK8sClusterCreation env.clusterResp env.clusterFetch env.clusterFuel).2 ++
          (waitMattermostInstallation cfg pr i0.ID false env.bootstrapOk
            env.instFetch 0 env.instFuel).2)) ∧
    bootstrapCount
      (requestK8sClusterCreation env.clusterResp env.clusterFetch env.clusterFuel).2 = 0 ∧
    bootstrapCount (createSpinWick cfg pr size env).2 = 1 ∧
    (∀ (cfg2 : Config) (pr2 : PullRequest) (id2 : String) (b2 : Bool)
       (fetch2 : Nat → InstFetch) (i2 fuel2 : Nat),
       bootstrapCount
         (waitMattermostInstallation cfg2 pr2 id2 true b2 fetch2 i2 fuel2).2 = 0) := by
  have hgs := goSlice_take7 pr.Sha hsha
  have hcpoll : waitK8sPoll (env.clusterFetch (0+kc)) =
      some (Except.ok (),
        [Event.comment "Kubernetes cluster created. Now will deploy Mattermost... Hang on!"]) := by
    simp only [Nat.zero_add, hcs]
    simp [waitK8sPoll, hcstate]
  have hcluster := waitK8s_reach c.ID env.clusterFetch kc 0 env.clusterFuel hkc
    (by simpa using hccont) _ _ hcpoll
  have hreq : requestK8sClusterCreation env.clusterResp env.clusterFetch env.clusterFuel =
      (Except.ok (),
       Event.comment "Please wait while a new kubernetes cluster is created for your SpinWick"
         :: Event.clusterCreateReq "SizeAlef1000"
         :: (List.replicate (kc+1) (Event.getCluster c.ID) ++
             [Event.comment "Kubernetes cluster created. Now will deploy Mattermost... Hang on!"])) := by
    simp [requestK8sClusterCreation, hclresp, hcluster]
  have hipoll : waitMMPoll cfg pr false env.bootstrapOk (env.instFetch (0+ki)) =
      some (Except.ok (),
        [Event.bootstrap (mmURL cfg pr) pr.Number,
         Event.comment ("Mattermost test server created! :tada:\n\nAccess here: "
           ++ mmURL cfg pr ++ "\n\n" ++ userTable)]) := by
    simp only [Nat.zero_add, his]
    simp [waitMMPoll, histate, hboot]
  have hw := waitMM_reach cfg pr i0.ID false env.bootstrapOk env.instFetch ki 0 env.instFuel hki
    (by simpa using hicont) _ _ hipoll
  refine ⟨?_, ?_, ?_, ?_, ?_⟩
  · simp [createSpinWick, hgs, hc, hf, hstate, hreq, hw]
  · refine ⟨{
      OwnerID := makePullRequestID pr.RepoName pr.Number
      Version := String.mk (pr.Sha.data.take 7)
      DNS := makePullRequestID pr.RepoName pr.Number ++ "." ++ cfg.DNSNameTestServer
      Size := size
      Affinity := "multitenant" }, ?_⟩
    simp [createSpinWick, hgs, hc, hf, hstate, hreq, hw]
  · rw [hreq]
    simp [bootstrapCount, List.filter_cons, List.filter_append, isBootstrapEv,
      filter_bootstrap_replicate]
  · have htr : (createSpinWick cfg pr size env).2 =
        Event.createInstallationReq
          { OwnerID := makePullRequestID pr.RepoName pr.Number
            Version := String.mk (pr.Sha.data.take 7)
            DNS := makePullRequestID pr.RepoName pr.Number ++ "." ++ cfg.DNSNameTestServer
            Size := size
            Affinity := "multitenant" }
          :: Event.getInstallation i0.ID ::
          ((requestK8sClusterCreation env.clusterResp env.clusterFetch env.clusterFuel).2 ++
            (waitMattermostInstallation cfg pr i0.ID false env.bootstrapOk
              env.instFetch 0 env.instFuel).2) := by
      simp [createSpinWick, hgs, hc, hf, hstate, hreq, hw]
    rw [htr, hreq]
    rw [congrArg Prod.snd hw]
    simp [bootstrapCount, List.filter_cons, List.filter_append, isBootstrapEv,
      filter_bootstrap_replicate]
  · intro cfg2 pr2 id2 b2 fetch2 i2 fuel2
    exact waitMM_upgrade_no_bootstrap cfg2 pr2 id2 b2 fetch2 fuel2 i2

/-- Witness for C7: a concrete run through the no-compatible-clusters
path with everything stabilizing. -/
theorem C7_cluster_then_bootstrap_once_witness :
    (createSpinWick cfgEx prEx "miniSingleton" createEnvEx).1 =
      RunResult.ok instCreatingEx.ID ∧
    bootstrapCount (createSpinWick cfgEx prEx "miniSingleton" createEnvEx).2 = 1 :=
  ⟨(C7_cluster_then_bootstrap_once cfgEx prEx "miniSingleton" createEnvEx
      instCreatingEx instNoClustersEx instStableEx clusterStableEx clusterStableEx
      (by decide) rfl rfl rfl rfl 0 (by omega) (fun j hj => absurd hj (by omega))
      rfl rfl 0 (by omega) (fun j hj => absurd hj (by omega)) rfl rfl rfl).1,
   (C7_cluster_then_bootstrap_once cfgEx prEx "miniSingleton" createEnvEx
      instCreatingEx instNoClustersEx instStableEx clusterStableEx clusterStableEx
      (by decide) rfl rfl rfl rfl 0 (by omega) (fun j hj => absurd hj (by omega))
      rfl rfl 0 (by omega) (fun j hj => absurd hj (by omega)) rfl rfl rfl).2.2.2.1⟩

end Mattermod
